import Mathlib

/-!
Shallow embedding of the HTTP gateway in src/app.py (Flask service over
the Microsoft Graph drive API).  Pure logic of the program is translated
to Lean definitions; every network interaction (requests.get/post) is an
explicit parameter of type Except (status, body) or a response value, and
the global mutable caches become explicit state arguments with the new
state returned.  Booleans mirror Python truthiness where the source
relies on it.
-/

/-- Approximation of Python's default whitespace set for str.strip
(ASCII whitespace; the handlers never receive other whitespace). -/
def pySpace (c : Char) : Bool :=
  c = ' ' || c = '\t' || c = '\n' || c = '\r' || c = '\x0b' || c = '\x0c'

/-- Python str.strip with a character predicate: drop matching characters
from both ends of the string. -/
def stripEnds (p : Char → Bool) (s : String) : String :=
  String.mk (((s.data.dropWhile p).reverse.dropWhile p).reverse)

/-- Python s.strip() (no argument: whitespace). -/
def pyStrip (s : String) : String := stripEnds pySpace s

/-- Python s.strip("/"). -/
def pyStripSlashes (s : String) : String := stripEnds (fun c => c = '/') s

/-- Path normalisation used by the handlers: .strip().strip("/")
(app.py lines 146, 185, 247). -/
def normPath (s : String) : String := pyStripSlashes (pyStrip s)

/-- Python truthiness of an optional string (None and the empty string
are falsy). -/
def pyTruthy (o : Option String) : Bool := !(o.getD "").isEmpty

/-- Python f-string rendering of an optional string (None prints as
the four characters None). -/
def pyFStr (o : Option String) : String :=
  match o with
  | none => "None"
  | some s => s

/-- Python str.lower, on the character list (ASCII case mapping, which
covers the extension dispatch). -/
def pyLower (s : String) : String := String.mk (s.data.map Char.toLower)

/-- Python str.endswith, on the character lists. -/
def pyEndsWith (s t : String) : Bool := List.isSuffixOf t.data s.data

/-- require_api_key (app.py lines 73-74): the x-api-key request header
(None when absent) compared with the API_KEY environment value (None
when unset). -/
def require_api_key (header apiKey : Option String) : Bool :=
  header == apiKey

/-- State of the module-level token cache _token_cache (app.py line 24):
access_token (None initially) and exp (a timestamp, 0 initially). -/
structure TokenCache where
  access_token : Option String
  exp : ℚ
deriving DecidableEq

/-- JSON body of a successful token response: access_token is required
(tok["access_token"] raises if absent), expires_in is optional with
default 3600 (tok.get("expires_in", 3600)). -/
structure TokenResp where
  access_token : String
  expires_in : Option ℚ
deriving DecidableEq

/-- get_graph_token (app.py lines 26-42).  now is time.time(); net is the
outcome of the token POST (raise_for_status folded into Except).  Returns
the token, the new cache state and whether a network call was made. -/
def get_graph_token (st : TokenCache) (now : ℚ)
    (net : Except (Nat × String) TokenResp) :
    Except (Nat × String) (String × TokenCache × Bool) :=
  if pyTruthy st.access_token ∧ now < st.exp - 60 then
    .ok (st.access_token.getD "", st, false)
  else
    match net with
    | .error err => .error err
    | .ok tok =>
        .ok (tok.access_token,
             ⟨some tok.access_token, now + tok.expires_in.getD 3600⟩, true)

/-- Transient statuses retried by gget/gpost (app.py lines 53, 63). -/
def transientStatus (s : Nat) : Bool :=
  s = 429 || s = 500 || s = 502 || s = 503 || s = 504

/-- requests.Response.raise_for_status: raise HTTPError carrying status
and body for a 4xx/5xx status, otherwise return the response. -/
def raiseForStatus (r : Nat × String) : Except (Nat × String) (Nat × String) :=
  if 400 ≤ r.1 then .error r else .ok r

/-- Body of the for-loop of gget/gpost (app.py lines 50-68).  attempt is
the 1-based attempt number of the next response, last the most recent
response (for the raise_for_status after the loop), and the list holds
the responses the remaining iterations would receive.  Result: the list
of sleep durations (time.sleep(1.5 * (i + 1))) in order, and the final
outcome. -/
def ggetLoop (attempt : Nat) (last : Nat × String) :
    List (Nat × String) → List ℚ × Except (Nat × String) (Nat × String)
  | [] => ([], raiseForStatus last)
  | r :: rest =>
    if transientStatus r.1 then
      ((3 : ℚ) / 2 * (attempt : ℚ) :: (ggetLoop (attempt + 1) r rest).1,
       (ggetLoop (attempt + 1) r rest).2)
    else ([], raiseForStatus r)

/-- gget/gpost (app.py lines 50-68): for i in range(5), so exactly the
five responses r0..r4 can be consumed; after the loop the last response
is raise_for_status-ed. -/
def gget (r0 r1 r2 r3 r4 : Nat × String) :
    List ℚ × Except (Nat × String) (Nat × String) :=
  ggetLoop 1 r0 [r0, r1, r2, r3, r4]

/-- Python exceptions distinguished by the handlers: requests.HTTPError
(carrying e.response.status_code and e.response.text) versus any other
exception (carrying str(e)). -/
inductive PyErr where
  | http (status : Nat) (body : String)
  | other (msg : String)
deriving DecidableEq

/-- get_user_drive_id (app.py lines 81-89).  st is _drive_cache["id"],
user is ONEDRIVE_USER, net the outcome of the drive GET delivering
data.get("id").  Returns the returned id, the new cache state and
whether a network call was made. -/
def get_user_drive_id (st user : Option String)
    (net : Except (Nat × String) (Option String)) :
    Except PyErr (Option String × Option String × Bool) :=
  if pyTruthy st then .ok (st, st, false)
  else if !(pyTruthy user) then .error (.other "ONEDRIVE_USER non configurato")
  else
    match net with
    | .error e => .error (.http e.1 e.2)
    | .ok fetched => .ok (fetched, fetched, true)

/-- guess_ext (app.py lines 94-101): lowercase the name and test the five
recognised extensions in order; empty string otherwise. -/
def guess_ext (name : String) : String :=
  if name.isEmpty then ""
  else
    let n := pyLower name
    if pyEndsWith n ".pdf" then ".pdf"
    else if pyEndsWith n ".docx" then ".docx"
    else if pyEndsWith n ".txt" then ".txt"
    else if pyEndsWith n ".md" then ".md"
    else if pyEndsWith n ".csv" then ".csv"
    else ""

/-- Abstract view of a parsed docx document: python-docx exposes
doc.paragraphs (each with a text) and doc.tables (rows of cells, each
with a text).  app.py only reads doc.paragraphs. -/
structure DocxDoc where
  paragraphs : List String
  tables : List (List (List String))
deriving DecidableEq

/-- Continuation byte test for UTF-8 (0x80-0xBF). -/
def utf8Cont (b : Nat) : Bool := 0x80 ≤ b && b ≤ 0xBF

/-- Admissible second byte after a three-byte leader (excludes overlong
encodings for 0xE0 and surrogates for 0xED). -/
def utf8E1Ok (b c1 : Nat) : Bool :=
  if b = 0xE0 then 0xA0 ≤ c1 && c1 ≤ 0xBF
  else if b = 0xED then 0x80 ≤ c1 && c1 ≤ 0x9F
  else utf8Cont c1

/-- Admissible second byte after a four-byte leader (excludes overlong
encodings for 0xF0 and values above U+10FFFF for 0xF4). -/
def utf8F1Ok (b c1 : Nat) : Bool :=
  if b = 0xF0 then 0x90 ≤ c1 && c1 ≤ 0xBF
  else if b = 0xF4 then 0x80 ≤ c1 && c1 ≤ 0x8F
  else utf8Cont c1

/-- bytes.decode("utf-8", errors="ignore") (app.py line 113): strict
UTF-8 decoding where every ill-formed subsequence is skipped (dropped)
rather than replaced; the bytes of a valid prefix of an incomplete
sequence are consumed and dropped, as CPython does. -/
def utf8DecodeIgnoreGo : Nat → List Nat → List Char
  | 0, _ => []
  | _, [] => []
  | fuel + 1, b :: rest =>
    if b < 0x80 then Char.ofNat b :: utf8DecodeIgnoreGo fuel rest
    else if 0xC2 ≤ b && b ≤ 0xDF then
      match rest with
      | [] => []
      | c1 :: rest2 =>
        if utf8Cont c1 then
          Char.ofNat ((b % 0x20) * 0x40 + (c1 % 0x40)) :: utf8DecodeIgnoreGo fuel rest2
        else utf8DecodeIgnoreGo fuel (c1 :: rest2)
    else if 0xE0 ≤ b && b ≤ 0xEF then
      match rest with
      | [] => []
      | c1 :: rest2 =>
        if utf8E1Ok b c1 then
          match rest2 with
          | [] => []
          | c2 :: rest3 =>
            if utf8Cont c2 then
              Char.ofNat ((b % 0x10) * 0x1000 + (c1 % 0x40) * 0x40 + (c2 % 0x40)) ::
                utf8DecodeIgnoreGo fuel rest3
            else utf8DecodeIgnoreGo fuel (c2 :: rest3)
        else utf8DecodeIgnoreGo fuel (c1 :: rest2)
    else if 0xF0 ≤ b && b ≤ 0xF4 then
      match rest with
      | [] => []
      | c1 :: rest2 =>
        if utf8F1Ok b c1 then
          match rest2 with
          | [] => []
          | c2 :: rest3 =>
            if utf8Cont c2 then
              match rest3 with
              | [] => []
              | c3 :: rest4 =>
                if utf8Cont c3 then
                  Char.ofNat ((b % 8) * 0x40000 + (c1 % 0x40) * 0x1000 +
                      (c2 % 0x40) * 0x40 + (c3 % 0x40)) ::
                    utf8DecodeIgnoreGo fuel rest4
                else utf8DecodeIgnoreGo fuel (c3 :: rest4)
            else utf8DecodeIgnoreGo fuel (c2 :: rest3)
        else utf8DecodeIgnoreGo fuel (c1 :: rest2)
    else utf8DecodeIgnoreGo fuel rest

/-- Entry point of the decoder: every step consumes at least one byte,
so fuel length + 1 runs the recursion to completion. -/
def utf8DecodeIgnoreList (l : List Nat) : List Char :=
  utf8DecodeIgnoreGo (l.length + 1) l

/-- String result of the ignore-mode UTF-8 decode. -/
def utf8DecodeIgnore (l : List Nat) : String := String.mk (utf8DecodeIgnoreList l)

/-- extract_text_from_bytes (app.py lines 103-116).  The external
pdfminer extractor and python-docx parser are opaque collaborators,
passed as functions on the raw bytes.  The docx branch joins the
paragraph texts with newlines (line 110); doc.tables is never read.
The text branch decodes UTF-8 with errors ignored (line 113); since
that decode never raises, the latin-1 line 115 is unreachable.  Any
other extension returns the empty string (line 116). -/
def extract_text_from_bytes (pdfParse : List Nat → String)
    (docxParse : List Nat → DocxDoc) (content : List Nat)
    (filename : String) : String :=
  let ext := guess_ext filename
  if ext = ".pdf" then pdfParse content
  else if ext = ".docx" then String.intercalate "\n" (docxParse content).paragraphs
  else if ext = ".txt" ∨ ext = ".md" ∨ ext = ".csv" then utf8DecodeIgnore content
  else ""

/-- One page of a paginated Graph listing: resp.get("value", []) and
resp.get("@odata.nextLink"). -/
structure Page (α : Type) where
  value : List α
  nextLink : Option String
deriving DecidableEq

/-- The pagination while-loop (app.py lines 153-157, 196-200, 303-306):
starting from the first response, extend items with each page's value
and continue while the page carries a truthy @odata.nextLink.  The
argument lists the successive responses received. -/
def listChildren {α : Type} : List (Page α) → List α
  | [] => []
  | p :: rest => p.value ++ (if pyTruthy p.nextLink then listChildren rest else [])

/-- GRAPH_BASE (app.py line 19). -/
def GRAPH_BASE : String := "https://graph.microsoft.com/v1.0"

/-- Item metadata URL built by read_by_path (app.py line 252): the
normalised path is interpolated into the f-string with no
percent-escaping. -/
def read_meta_url (did : Option String) (path : String) : String :=
  GRAPH_BASE ++ "/drives/" ++ pyFStr did ++ "/root:/" ++ path

/-- Children listing URL built by debug_list and search (app.py lines
151, 195): again the raw path is interpolated unescaped. -/
def children_url (did : Option String) (path : String) : String :=
  GRAPH_BASE ++ "/drives/" ++ pyFStr did ++ "/root:/" ++ path ++ ":/children"

/-- Projection of a Graph driveItem JSON object to the fields the
handlers read: it.get("id"), it.get("name"), "folder" in it,
it.get("webUrl"), it.get("parentReference", \x7b\x7d).get("driveId"). -/
structure GItem where
  id : Option String
  name : Option String
  folder : Bool
  webUrl : Option String
  parentDriveId : Option String
deriving DecidableEq

/-- Result row of /search and of the children list of /resolve. -/
structure SItem where
  id : Option String
  driveId : Option String
  name : Option String
  typ : String
  webUrl : Option String
deriving DecidableEq

/-- Result row of /debug/list. -/
structure DItem where
  id : Option String
  name : Option String
  typ : String
  webUrl : Option String
deriving DecidableEq

/-- Result object of /resolve. -/
structure RRes where
  name : Option String
  id : Option String
  driveId : Option String
  webUrl : Option String
  typ : String
  children : Option (List SItem)
deriving DecidableEq

/-- Row projection shared by /search and /resolve (app.py lines 202-212,
219-227, 307-316). -/
def projS (it : GItem) : SItem :=
  ⟨it.id, it.parentDriveId, it.name, if it.folder then "folder" else "file", it.webUrl⟩

/-- Python "qlow in name"-style containment test
(it.get("name","").lower().find(qlow) != -1). -/
def containsSub (s sub : String) : Bool := decide (sub.data <:+: s.data)

/-- debug_drive handler (app.py lines 128-136): 401 without a matching
key; any exception from get_user_drive_id is answered with 500. -/
def debug_drive (header apiKey : Option String) (dst user : Option String)
    (dnet : Except (Nat × String) (Option String)) : Nat × Option (Option String) :=
  if ¬ require_api_key header apiKey then (401, none)
  else
    match get_user_drive_id dst user dnet with
    | .ok (did, _, _) => (200, some did)
    | .error _ => (500, none)

/-- debug_list handler (app.py lines 138-169).  pagesNet is the combined
outcome of the pagination loop (an HTTPError from any gget aborts the
whole try-block).  The children URL is abstracted into pagesNet. -/
def debug_list (header apiKey pathArg : Option String) (dst user : Option String)
    (dnet : Except (Nat × String) (Option String))
    (pagesNet : Except (Nat × String) (List (Page GItem))) :
    Nat × Option (List DItem) :=
  if ¬ require_api_key header apiKey then (401, none)
  else
    let _path :=
      let p := normPath (pathArg.getD "")
      if p = "" then "Documents" else p
    match get_user_drive_id dst user dnet with
    | .error (.http _ _) => (502, none)
    | .error (.other _) => (500, none)
    | .ok _ =>
      match pagesNet with
      | .error _ => (502, none)
      | .ok pages =>
        (200, some ((listChildren pages).map (fun it =>
          ⟨it.id, it.name, if it.folder then "folder" else "file", it.webUrl⟩)))

/-- search handler (app.py lines 174-233).  pagesNet serves the
path-scoped branch, searchNet the drive-search fallback; the first
component of the payload is the "scope" field. -/
def search_route (header apiKey qArg pathArg : Option String)
    (dst user : Option String)
    (dnet : Except (Nat × String) (Option String))
    (pagesNet : Except (Nat × String) (List (Page GItem)))
    (searchNet : Except (Nat × String) (List GItem)) :
    Nat × Option (String × List SItem) :=
  if ¬ require_api_key header apiKey then (401, none)
  else
    let q := pyStrip (qArg.getD "")
    let path := normPath (pathArg.getD "")
    if q = "" then (400, none)
    else
      match get_user_drive_id dst user dnet with
      | .error (.http _ _) => (502, none)
      | .error (.other _) => (500, none)
      | .ok _ =>
        if path ≠ "" then
          match pagesNet with
          | .error _ => (502, none)
          | .ok pages =>
            let qlow := pyLower q
            (200, some ("path",
              ((listChildren pages).filter
                (fun it => containsSub (pyLower (it.name.getD "")) qlow)).map projS))
        else
          match searchNet with
          | .error _ => (502, none)
          | .ok its => (200, some ("drive_search", its.map projS))

/-- read_by_path handler (app.py lines 238-264).  metaNet is the item
metadata GET at read_meta_url, contentNet the content GET; payload is
(path, name, text, bytes). -/
def read_by_path (pdfParse : List Nat → String) (docxParse : List Nat → DocxDoc)
    (header apiKey payloadPath : Option String) (dst user : Option String)
    (dnet : Except (Nat × String) (Option String))
    (metaNet : Except (Nat × String) GItem)
    (contentNet : Except (Nat × String) (List Nat)) :
    Nat × Option (String × String × String × Nat) :=
  if ¬ require_api_key header apiKey then (401, none)
  else
    let path := normPath (payloadPath.getD "")
    if path = "" then (400, none)
    else
      match get_user_drive_id dst user dnet with
      | .error (.http _ _) => (502, none)
      | .error (.other _) => (500, none)
      | .ok _ =>
        match metaNet with
        | .error _ => (502, none)
        | .ok meta =>
          let name := meta.name.getD ""
          match contentNet with
          | .error _ => (502, none)
          | .ok content =>
            (200, some (path, name,
              extract_text_from_bytes pdfParse docxParse content name,
              content.length))

/-- resolve_link handler (app.py lines 269-322).  The base64url sharing
token of line 283 only selects the remote resource and is abstracted
into itemNet/pagesNet. -/
def resolve_link (header apiKey urlArg : Option String)
    (itemNet : Except (Nat × String) GItem)
    (pagesNet : Except (Nat × String) (List (Page GItem))) : Nat × Option RRes :=
  if ¬ require_api_key header apiKey then (401, none)
  else
    let url := pyStrip (urlArg.getD "")
    if url = "" then (400, none)
    else
      match itemNet with
      | .error _ => (502, none)
      | .ok item =>
        if item.folder then
          match pagesNet with
          | .error _ => (502, none)
          | .ok pages =>
            (200, some ⟨item.name, item.id, item.parentDriveId, item.webUrl,
              "folder", some ((listChildren pages).map projS)⟩)
        else
          (200, some ⟨item.name, item.id, item.parentDriveId, item.webUrl,
            "file", none⟩)

/-- read_by_id handler (app.py lines 327-361): no drive lookup; the meta
URL (drives/driveId/items/id or drive/items/id) is abstracted into
metaNet; payload is (id, driveId, name, text, bytes). -/
def read_by_id (pdfParse : List Nat → String) (docxParse : List Nat → DocxDoc)
    (header apiKey payloadId payloadDriveId payloadName : Option String)
    (metaNet : Except (Nat × String) GItem)
    (contentNet : Except (Nat × String) (List Nat)) :
    Nat × Option (Option String × Option String × String × String × Nat) :=
  if ¬ require_api_key header apiKey then (401, none)
  else if !(pyTruthy payloadId) then (400, none)
  else
    match metaNet with
    | .error _ => (502, none)
    | .ok meta =>
      let name0 := payloadName.getD ""
      let name := if name0 = "" then meta.name.getD "" else name0
      match contentNet with
      | .error _ => (502, none)
      | .ok content =>
        (200, some (payloadId, payloadDriveId, name,
          extract_text_from_bytes pdfParse docxParse content name,
          content.length))

/-!
Theorems.
-/

/-- Every transient (retryable) status is at least 400, so
raise_for_status on it raises. -/
lemma transientStatus_ge (s : Nat) (h : transientStatus s = true) : 400 ≤ s := by
  simp [transientStatus] at h
  rcases h with h | h | h | h | h <;> omega

/-- Claim C1: get_graph_token returns a cached token unchanged, with no
network call, exactly when the cached token is set and has more than 60
seconds of validity left; otherwise it performs the client-credentials
exchange and, on success, stores the new token with expiry now +
expires_in and returns it. -/
theorem token_cache_policy :
    (∀ (st : TokenCache) (now : ℚ) (net : Except (Nat × String) TokenResp),
      pyTruthy st.access_token = true → 60 < st.exp - now →
      get_graph_token st now net = .ok (st.access_token.getD "", st, false)) ∧
    (∀ (st : TokenCache) (now : ℚ) (tok : TokenResp) (e : ℚ),
      ¬ (pyTruthy st.access_token = true ∧ now < st.exp - 60) →
      tok.expires_in = some e →
      get_graph_token st now (.ok tok) =
        .ok (tok.access_token, ⟨some tok.access_token, now + e⟩, true)) := by
  constructor
  · intro st now net htok hval
    have hval2 : now < st.exp - 60 := by linarith
    simp [get_graph_token, htok, hval2]
  · intro st now tok e hneg he
    simp [get_graph_token, hneg, he]

/-- Witness for claim C1 at concrete inputs: a token with 100 seconds of
validity left is served from the cache; an empty cache with a successful
exchange stores expiry now + 3600. -/
theorem token_cache_policy_witness :
    get_graph_token ⟨some "tok", 1000⟩ 900 (.error (0, "")) =
      .ok ("tok", ⟨some "tok", 1000⟩, false) ∧
    get_graph_token ⟨none, 0⟩ 0 (.ok ⟨"newtok", some 3600⟩) =
      .ok ("newtok", ⟨some "newtok", (0 : ℚ) + 3600⟩, true) :=
  ⟨token_cache_policy.1 ⟨some "tok", 1000⟩ 900 (.error (0, ""))
      (by decide) (by norm_num),
   token_cache_policy.2 ⟨none, 0⟩ 0 ⟨"newtok", some 3600⟩ 3600
      (by simp [pyTruthy]) rfl⟩

/-- Claim C2: on transient statuses 429/500/502/503/504 the client makes
up to 5 attempts, sleeping 1.5, 3, 4.5, 6 (1.5 times the 1-based attempt
number) seconds between attempts; four transient responses followed by a
2xx succeed on the fifth attempt, and five transient responses exhaust
the retries and raise with the terminal (fifth) response's status and
body. -/
theorem gget_retry_policy :
    (∀ r0 r1 r2 r3 r4 : Nat × String,
      transientStatus r0.1 = true → transientStatus r1.1 = true →
      transientStatus r2.1 = true → transientStatus r3.1 = true →
      200 ≤ r4.1 → r4.1 < 300 →
      gget r0 r1 r2 r3 r4 = ([3/2, 3, 9/2, 6], .ok r4)) ∧
    (∀ r0 r1 r2 r3 r4 : Nat × String,
      transientStatus r0.1 = true → transientStatus r1.1 = true →
      transientStatus r2.1 = true → transientStatus r3.1 = true →
      transientStatus r4.1 = true →
      gget r0 r1 r2 r3 r4 = ([3/2, 3, 9/2, 6, 15/2], .error r4)) := by
  constructor
  · intro r0 r1 r2 r3 r4 h0 h1 h2 h3 hlo hhi
    have ht : transientStatus r4.1 = false := by
      simp [transientStatus]
      omega
    have hr : raiseForStatus r4 = .ok r4 := by
      unfold raiseForStatus
      rw [if_neg (by omega)]
    simp [gget, ggetLoop, h0, h1, h2, h3, ht, hr]
    norm_num
  · intro r0 r1 r2 r3 r4 h0 h1 h2 h3 h4
    have hr : raiseForStatus r4 = .error r4 := by
      unfold raiseForStatus
      rw [if_pos (transientStatus_ge _ h4)]
    simp [gget, ggetLoop, h0, h1, h2, h3, h4, hr]
    norm_num

/-- Witness for claim C2: four 503 responses then a 200 succeed on the
fifth attempt after sleeps 1.5, 3, 4.5, 6; five 503 responses raise with
the fifth response's status and body. -/
theorem gget_retry_policy_witness :
    gget (503, "a") (503, "b") (503, "c") (503, "d") (200, "okbody") =
      ([3/2, 3, 9/2, 6], .ok (200, "okbody")) ∧
    gget (503, "e1") (503, "e2") (503, "e3") (503, "e4") (503, "efin") =
      ([3/2, 3, 9/2, 6, 15/2], .error (503, "efin")) :=
  ⟨gget_retry_policy.1 _ _ _ _ _ (by decide) (by decide) (by decide) (by decide)
      (by decide) (by decide),
   gget_retry_policy.2 _ _ _ _ _ (by decide) (by decide) (by decide) (by decide)
      (by decide)⟩

/-- Claim C10: the drive-id cache is write-once per process: the first
successful lookup stores the fetched id; every later call returns that
identical id with no network request and never invalidates it; with an
empty cache and ONEDRIVE_USER unset a RuntimeError is raised, which
debug_drive surfaces as HTTP 500. -/
theorem drive_cache_policy :
    (∀ (st user : Option String) (d : String),
      pyTruthy st = false → pyTruthy user = true → d ≠ "" →
      get_user_drive_id st user (.ok (some d)) = .ok (some d, some d, true)) ∧
    (∀ (d : String) (user : Option String)
       (net : Except (Nat × String) (Option String)),
      d ≠ "" →
      get_user_drive_id (some d) user net = .ok (some d, some d, false)) ∧
    (∀ (st : Option String) (net : Except (Nat × String) (Option String)),
      pyTruthy st = false →
      get_user_drive_id st none net =
        .error (.other "ONEDRIVE_USER non configurato")) ∧
    (∀ (header apiKey st : Option String)
       (net : Except (Nat × String) (Option String)),
      require_api_key header apiKey = true → pyTruthy st = false →
      debug_drive header apiKey st none net = (500, none)) := by
  refine ⟨?_, ?_, ?_, ?_⟩
  · intro st user d hst huser hd
    simp [get_user_drive_id, hst, huser]
  · intro d user net hd
    simp [get_user_drive_id, pyTruthy, String.isEmpty_iff, hd]
  · intro st net hst
    have hn : pyTruthy (none : Option String) = false := rfl
    simp [get_user_drive_id, hst, hn]
  · intro header apiKey st net hk hst
    have hn : pyTruthy (none : Option String) = false := rfl
    simp [debug_drive, hk, get_user_drive_id, hst, hn]

/-- Witness for claim C10: a first lookup stores driveA; a later call
with any user and network outcome returns driveA without a request; an
empty cache with no configured user errors, and debug_drive reports it
as 500. -/
theorem drive_cache_policy_witness :
    get_user_drive_id none (some "user") (.ok (some "driveA")) =
      .ok (some "driveA", some "driveA", true) ∧
    get_user_drive_id (some "driveA") none (.error (503, "x")) =
      .ok (some "driveA", some "driveA", false) ∧
    get_user_drive_id none none (.ok (some "ignored")) =
      .error (.other "ONEDRIVE_USER non configurato") ∧
    debug_drive (some "k") (some "k") none none (.ok (some "ignored")) =
      (500, none) :=
  ⟨drive_cache_policy.1 none (some "user") "driveA" (by decide) (by decide)
      (by decide),
   drive_cache_policy.2.1 "driveA" none (.error (503, "x")) (by decide),
   drive_cache_policy.2.2.1 none (.ok (some "ignored")) (by decide),
   drive_cache_policy.2.2.2 (some "k") (some "k") none (.ok (some "ignored"))
      (by decide) (by decide)⟩

/-- Claim C5 (amended): every non-health route answers a request whose
x-api-key header does not match the configured secret with status 401
(not 403). -/
theorem bad_api_key_gives_401 :
    ∀ header apiKey : Option String, require_api_key header apiKey = false →
      (∀ q p dst u dn pg sn,
        (search_route header apiKey q p dst u dn pg sn).1 = 401) ∧
      (∀ f g pp dst u dn mn cn,
        (read_by_path f g header apiKey pp dst u dn mn cn).1 = 401) ∧
      (∀ f g pid pdid pn mn cn,
        (read_by_id f g header apiKey pid pdid pn mn cn).1 = 401) ∧
      (∀ u itn pg, (resolve_link header apiKey u itn pg).1 = 401) ∧
      (∀ p dst u dn pg, (debug_list header apiKey p dst u dn pg).1 = 401) ∧
      (∀ dst u dn, (debug_drive header apiKey dst u dn).1 = 401) := by
  intro header apiKey h
  refine ⟨?_, ?_, ?_, ?_, ?_, ?_⟩ <;> intros <;>
    simp [search_route, read_by_path, read_by_id, resolve_link, debug_list,
      debug_drive, h]

/-- Witness for claim C5 at a concrete mismatched key on all six guarded
routes. -/
theorem bad_api_key_gives_401_witness :
    (search_route (some "wrong") (some "secret") (some "q") none (some "d") none
      (.error (0, "")) (.error (0, "")) (.error (0, ""))).1 = 401 ∧
    (read_by_path (fun _ => "") (fun _ => ⟨[], []⟩) (some "wrong") (some "secret")
      (some "Docs/x.pdf") (some "d") none (.error (0, "")) (.error (0, ""))
      (.error (0, ""))).1 = 401 ∧
    (read_by_id (fun _ => "") (fun _ => ⟨[], []⟩) (some "wrong") (some "secret")
      (some "id1") none none (.error (0, "")) (.error (0, ""))).1 = 401 ∧
    (resolve_link (some "wrong") (some "secret") (some "https://x")
      (.error (0, "")) (.error (0, ""))).1 = 401 ∧
    (debug_list (some "wrong") (some "secret") (some "Docs") (some "d") none
      (.error (0, "")) (.error (0, ""))).1 = 401 ∧
    (debug_drive (some "wrong") (some "secret") (some "d") none
      (.error (0, ""))).1 = 401 :=
  ⟨(bad_api_key_gives_401 (some "wrong") (some "secret") (by decide)).1 _ _ _ _ _ _ _,
   (bad_api_key_gives_401 (some "wrong") (some "secret") (by decide)).2.1 _ _ _ _ _ _ _ _,
   (bad_api_key_gives_401 (some "wrong") (some "secret") (by decide)).2.2.1 _ _ _ _ _ _ _,
   (bad_api_key_gives_401 (some "wrong") (some "secret") (by decide)).2.2.2.1 _ _ _,
   (bad_api_key_gives_401 (some "wrong") (some "secret") (by decide)).2.2.2.2.1 _ _ _ _ _,
   (bad_api_key_gives_401 (some "wrong") (some "secret") (by decide)).2.2.2.2.2 _ _ _⟩

/-- Counterexample to claim C5 as stated: a /read request with a wrong
x-api-key is answered with status 401, which is not the claimed 403. -/
theorem bad_api_key_cex :
    (read_by_path (fun _ => "") (fun _ => ⟨[], []⟩) (some "wrong") (some "secret")
      (some "Docs/x.pdf") (some "d") none (.error (0, "")) (.error (0, ""))
      (.error (0, ""))).1 = 401 ∧
    (401 : Nat) ≠ 403 := by
  constructor
  · decide
  · decide

/-- Claim C3 (amended): the read endpoints return the extracted text in
full and unmodified; no MAX_CHARS cap is applied, no truncation marker
is appended, and the response carries no truncated flag. -/
theorem read_text_uncapped :
    (∀ (f : List Nat → String) (g : List Nat → DocxDoc)
       (header apiKey pp dst user : Option String)
       (dn : Except (Nat × String) (Option String)) (meta : GItem)
       (content : List Nat) (did : Option String × Option String × Bool),
      require_api_key header apiKey = true →
      normPath (pp.getD "") ≠ "" →
      get_user_drive_id dst user dn = .ok did →
      read_by_path f g header apiKey pp dst user dn (.ok meta) (.ok content) =
        (200, some (normPath (pp.getD ""), meta.name.getD "",
          extract_text_from_bytes f g content (meta.name.getD ""),
          content.length))) ∧
    (∀ (f : List Nat → String) (g : List Nat → DocxDoc)
       (header apiKey pid pdid pn : Option String) (meta : GItem)
       (content : List Nat),
      require_api_key header apiKey = true →
      pyTruthy pid = true → pyTruthy pn = true →
      read_by_id f g header apiKey pid pdid pn (.ok meta) (.ok content) =
        (200, some (pid, pdid, pn.getD "",
          extract_text_from_bytes f g content (pn.getD ""),
          content.length))) := by
  constructor
  · intro f g header apiKey pp dst user dn meta content did hk hp hdid
    simp [read_by_path, hk, hp, hdid]
  · intro f g header apiKey pid pdid pn meta content hk hpid hpn
    have hn : pn.getD "" ≠ "" := by
      intro hcontra
      unfold pyTruthy at hpn
      rw [hcontra] at hpn
      exact absurd hpn (by decide)
    simp [read_by_id, hk, hpid, hn]

/-- Witness for the amended claim C3: a 2-byte text file comes back as
its full 2-character text. -/
theorem read_text_uncapped_witness :
    read_by_path (fun _ => "") (fun _ => ⟨[], []⟩) (some "k") (some "k")
      (some "Docs/x.txt") (some "d") none (.error (0, ""))
      (.ok ⟨none, some "x.txt", false, none, none⟩) (.ok [72, 105]) =
      (200, some ("Docs/x.txt", "x.txt", "Hi", 2)) ∧
    read_by_id (fun _ => "") (fun _ => ⟨[], []⟩) (some "k") (some "k")
      (some "id1") (some "d") (some "y.txt")
      (.ok ⟨none, some "meta.txt", false, none, none⟩) (.ok [72, 105]) =
      (200, some (some "id1", some "d", "y.txt", "Hi", 2)) :=
  ⟨(read_text_uncapped.1 (fun _ => "") (fun _ => ⟨[], []⟩) (some "k") (some "k")
      (some "Docs/x.txt") (some "d") none (.error (0, ""))
      ⟨none, some "x.txt", false, none, none⟩ [72, 105]
      (some "d", some "d", false) (by decide) (by decide) rfl).trans
      (by decide),
   (read_text_uncapped.2 (fun _ => "") (fun _ => ⟨[], []⟩) (some "k") (some "k")
      (some "id1") (some "d") (some "y.txt")
      ⟨none, some "meta.txt", false, none, none⟩ [72, 105]
      (by decide) (by decide) (by decide)).trans (by decide)⟩

/-- Counterexample to claim C3 as stated: with a 50-character text file,
the /read response carries all 50 characters; for the spec's example cap
MAX_CHARS = 10 nothing is truncated (50 is not at most 10) and the
response has no truncated field at all. -/
theorem read_truncation_cex :
    read_by_path (fun _ => "") (fun _ => ⟨[], []⟩) (some "k") (some "k")
      (some "Docs/big.txt") (some "d") none (.error (0, ""))
      (.ok ⟨none, some "big.txt", false, none, none⟩)
      (.ok (List.replicate 50 97)) =
      (200, some ("Docs/big.txt", "big.txt",
        String.mk (List.replicate 50 'a'), 50)) ∧
    (String.mk (List.replicate 50 'a')).length = 50 ∧ ¬ (50 ≤ 10) := by
  decide

/-- Claim C4 (amended): an unrecognised extension makes
extract_text_from_bytes return the empty string (no error is raised),
and a /read request with a correct key and such a filename is answered
200 with empty text; no 415 response exists. -/
theorem unsupported_ext_yields_empty :
    (∀ (f : List Nat → String) (g : List Nat → DocxDoc) (c : List Nat)
       (name : String), guess_ext name = "" →
      extract_text_from_bytes f g c name = "") ∧
    (∀ (f : List Nat → String) (g : List Nat → DocxDoc)
       (header apiKey pp dst user : Option String)
       (dn : Except (Nat × String) (Option String)) (meta : GItem)
       (content : List Nat) (did : Option String × Option String × Bool),
      require_api_key header apiKey = true →
      normPath (pp.getD "") ≠ "" →
      get_user_drive_id dst user dn = .ok did →
      guess_ext (meta.name.getD "") = "" →
      read_by_path f g header apiKey pp dst user dn (.ok meta) (.ok content) =
        (200, some (normPath (pp.getD ""), meta.name.getD "", "",
          content.length))) := by
  have e1 : ∀ (f : List Nat → String) (g : List Nat → DocxDoc) (c : List Nat)
      (name : String), guess_ext name = "" →
      extract_text_from_bytes f g c name = "" := by
    intro f g c name h
    simp [extract_text_from_bytes, h]
  refine ⟨e1, ?_⟩
  intro f g header apiKey pp dst user dn meta content did hk hp hdid hext
  simp [read_by_path, hk, hp, hdid, e1 f g content _ hext]

/-- Witness for the amended claim C4: a .xyz file yields empty text with
status 200. -/
theorem unsupported_ext_yields_empty_witness :
    extract_text_from_bytes (fun _ => "pdftext") (fun _ => ⟨["para"], []⟩)
      [1, 2, 3] "doc.xyz" = "" ∧
    read_by_path (fun _ => "") (fun _ => ⟨[], []⟩) (some "k") (some "k")
      (some "Docs/x.xyz") (some "d") none (.error (0, ""))
      (.ok ⟨none, some "x.xyz", false, none, none⟩) (.ok [0, 1, 2]) =
      (200, some ("Docs/x.xyz", "x.xyz", "", 3)) :=
  ⟨unsupported_ext_yields_empty.1 (fun _ => "pdftext") (fun _ => ⟨["para"], []⟩)
      [1, 2, 3] "doc.xyz" (by decide),
   (unsupported_ext_yields_empty.2 (fun _ => "") (fun _ => ⟨[], []⟩) (some "k")
      (some "k") (some "Docs/x.xyz") (some "d") none (.error (0, ""))
      ⟨none, some "x.xyz", false, none, none⟩ [0, 1, 2]
      (some "d", some "d", false) (by decide) (by decide) rfl
      (by decide)).trans (by decide)⟩

/-- Counterexample to claim C4 as stated: extraction of a .xyz input
returns the empty string as a normal value instead of failing with
UnsupportedFormatError, and the /read route answers 200, not 415. -/
theorem unsupported_ext_cex :
    extract_text_from_bytes (fun _ => "pdftext") (fun _ => ⟨["para"], []⟩)
      [1, 2, 3] "doc.xyz" = "" ∧
    (read_by_path (fun _ => "") (fun _ => ⟨[], []⟩) (some "k") (some "k")
      (some "Docs/x.xyz") (some "d") none (.error (0, ""))
      (.ok ⟨none, some "x.xyz", false, none, none⟩) (.ok [0, 1, 2])).1 = 200 ∧
    (200 : Nat) ≠ 415 := by
  decide

/-- Claim C6 (amended): .docx extraction returns only the paragraph
texts joined by newlines, in document order; table rows are not
appended. -/
theorem docx_paragraphs_only :
    ∀ (f : List Nat → String) (g : List Nat → DocxDoc) (c : List Nat)
      (name : String), guess_ext name = ".docx" →
      extract_text_from_bytes f g c name =
        String.intercalate "\n" (g c).paragraphs := by
  intro f g c name h
  simp [extract_text_from_bytes, h]

/-- Witness for the amended claim C6: the Hello document with a 2x2
table extracts to just Hello. -/
theorem docx_paragraphs_only_witness :
    extract_text_from_bytes (fun _ => "")
      (fun _ => ⟨["Hello"], [[["cellA", "cellB"], ["cellC", "cellD"]]]⟩)
      [80, 75] "t.docx" = String.intercalate "\n" ["Hello"] :=
  docx_paragraphs_only (fun _ => "")
    (fun _ => ⟨["Hello"], [[["cellA", "cellB"], ["cellC", "cellD"]]]⟩)
    [80, 75] "t.docx" (by decide)

/-- Counterexample to claim C6 as stated: the document with paragraph
Hello and a 2x2 table extracts to Hello alone, not to the claimed
string with tab-joined table rows. -/
theorem docx_tables_cex :
    extract_text_from_bytes (fun _ => "")
      (fun _ => ⟨["Hello"], [[["cellA", "cellB"], ["cellC", "cellD"]]]⟩)
      [80, 75] "t.docx" = "Hello" ∧
    ("Hello" : String) ≠ "Hello\ncellA\tcellB\ncellC\tcellD" := by
  decide

/-- Claim C9 (amended): for names with a recognised text extension the
extraction is the total UTF-8 decode that drops (rather than replaces)
invalid sequences and never raises; the latin-1 fallback is
unreachable. -/
theorem text_decode_utf8_drop :
    ∀ (f : List Nat → String) (g : List Nat → DocxDoc) (content : List Nat)
      (name : String),
      guess_ext name = ".txt" ∨ guess_ext name = ".md" ∨
        guess_ext name = ".csv" →
      extract_text_from_bytes f g content name = utf8DecodeIgnore content := by
  intro f g content name h
  rcases h with h | h | h <;> simp [extract_text_from_bytes, h]

/-- Witness for the amended claim C9: bytes FF 48 69 under a .txt name
decode to Hi, the invalid byte being dropped. -/
theorem text_decode_utf8_drop_witness :
    extract_text_from_bytes (fun _ => "") (fun _ => ⟨[], []⟩) [255, 72, 105]
      "a.txt" = utf8DecodeIgnore [255, 72, 105] ∧
    utf8DecodeIgnore [255, 72, 105] = "Hi" :=
  ⟨text_decode_utf8_drop (fun _ => "") (fun _ => ⟨[], []⟩) [255, 72, 105]
      "a.txt" (Or.inl (by decide)),
   by decide⟩

/-- Counterexample to claim C9 as stated: the invalid byte FF before A
is dropped, so the result is A and not the replacement-character string
that errors-replace decoding would produce. -/
theorem utf8_replace_cex :
    extract_text_from_bytes (fun _ => "") (fun _ => ⟨[], []⟩) [255, 65]
      "a.txt" = "A" ∧
    ("A" : String) ≠ String.mk [Char.ofNat 0xFFFD, 'A'] := by
  decide

/-- The head of a dropWhile result never satisfies the predicate. -/
lemma dropWhile_head_not {α : Type} (p : α → Bool) (l : List α) (c : α)
    (h : (l.dropWhile p).head? = some c) : p c = false := by
  induction l with
  | nil => simp [List.dropWhile] at h
  | cons a t ih =>
    rw [List.dropWhile_cons] at h
    by_cases hp : p a = true
    · rw [if_pos hp] at h
      exact ih h
    · rw [if_neg hp] at h
      simp only [List.head?_cons, Option.some.injEq] at h
      subst h
      simpa using hp

/-- Dropping a final run (via double reverse) leaves a prefix. -/
lemma reverse_dropWhile_rev_pfx {α : Type} (p : α → Bool) (u : List α) :
    (u.reverse.dropWhile p).reverse <+: u := by
  obtain ⟨t, ht⟩ := List.dropWhile_suffix (l := u.reverse) p
  refine ⟨t.reverse, ?_⟩
  have h3 := congrArg List.reverse ht
  rwa [List.reverse_append, List.reverse_reverse] at h3

/-- The two-sided strip keeps a contiguous substring of the input; no
character is added, removed from the middle, or rewritten. -/
lemma stripEnds_data_contig (p : Char → Bool) (s : String) :
    (stripEnds p s).data <:+: s.data := by
  show ((s.data.dropWhile p).reverse.dropWhile p).reverse <:+: s.data
  obtain ⟨t1, ht1⟩ := reverse_dropWhile_rev_pfx p (s.data.dropWhile p)
  obtain ⟨t2, ht2⟩ := List.dropWhile_suffix (l := s.data) p
  exact ⟨t2, t1, by rw [List.append_assoc, ht1, ht2]⟩

/-- The first character surviving a two-sided strip does not satisfy the
stripped predicate. -/
lemma stripEnds_head_not (p : Char → Bool) (s : String) (c : Char)
    (h : (stripEnds p s).data.head? = some c) : p c = false := by
  obtain ⟨t1, ht1⟩ := reverse_dropWhile_rev_pfx p (s.data.dropWhile p)
  have hd : (stripEnds p s).data =
      ((s.data.dropWhile p).reverse.dropWhile p).reverse := rfl
  rw [hd] at h
  cases hv : ((s.data.dropWhile p).reverse.dropWhile p).reverse with
  | nil => rw [hv] at h; simp at h
  | cons a vt =>
    rw [hv] at h ht1
    simp only [List.head?_cons, Option.some.injEq] at h
    subst h
    apply dropWhile_head_not p s.data
    rw [← ht1]
    simp

/-- The pagination loop concatenates the value arrays of the successive
pages, provided each page except the last carries a truthy continuation
link and the last does not. -/
lemma listChildren_eq_flatten {α : Type} (pages : List (Page α))
    (h : ∀ i, i < pages.length →
      (pyTruthy ((pages.getD i ⟨[], none⟩).nextLink) = true ↔
        i + 1 < pages.length)) :
    listChildren pages = (pages.map Page.value).flatten := by
  induction pages with
  | nil => simp [listChildren]
  | cons p rest ih =>
    cases rest with
    | nil =>
      have h0 := h 0 (by simp)
      rw [List.getD_cons_zero] at h0
      have hf : pyTruthy p.nextLink = false := by simpa using h0
      simp [listChildren, hf]
    | cons q rest2 =>
      have h0 := h 0 (by simp)
      rw [List.getD_cons_zero] at h0
      have ht : pyTruthy p.nextLink = true := h0.mpr (by simp)
      have hs : ∀ i, i < (q :: rest2).length →
          (pyTruthy (((q :: rest2).getD i ⟨[], none⟩).nextLink) = true ↔
            i + 1 < (q :: rest2).length) := by
        intro i hi
        have h1 := h (i + 1) (by simpa using Nat.succ_lt_succ hi)
        rw [List.getD_cons_succ] at h1
        constructor
        · intro hx
          have h2 := h1.mp hx
          simp only [List.length_cons] at h2 ⊢
          omega
        · intro hx
          apply h1.mpr
          simp only [List.length_cons] at hx ⊢
          omega
      have ih2 := ih hs
      show p.value ++
          (if pyTruthy p.nextLink = true then listChildren (q :: rest2) else []) =
        ((p :: q :: rest2).map Page.value).flatten
      rw [if_pos ht, ih2]
      simp

/-- Claim C7: the resolver follows continuation links until none
remains and returns the concatenation of the pages' item arrays in page
order, so the result length is the sum of the page sizes. -/
theorem pagination_concat {α : Type} (pages : List (Page α))
    (h : ∀ i, i < pages.length →
      (pyTruthy ((pages.getD i ⟨[], none⟩).nextLink) = true ↔
        i + 1 < pages.length)) :
    listChildren pages = (pages.map Page.value).flatten ∧
    (listChildren pages).length =
      ((pages.map Page.value).map List.length).sum := by
  have e := listChildren_eq_flatten pages h
  exact ⟨e, by rw [e, List.length_flatten]⟩

/-- Witness for claim C7: a 3-page listing with sizes 2, 2, 1
concatenates in page order with total length 5. -/
theorem pagination_concat_witness :
    listChildren
      [⟨[1, 2], some "n1"⟩, ⟨[3, 4], some "n2"⟩, (⟨[5], none⟩ : Page Nat)] =
      [1, 2, 3, 4, 5] ∧
    (listChildren
      [⟨[1, 2], some "n1"⟩, ⟨[3, 4], some "n2"⟩,
        (⟨[5], none⟩ : Page Nat)]).length = 2 + 2 + 1 := by
  have h := pagination_concat
    [⟨[1, 2], some "n1"⟩, ⟨[3, 4], some "n2"⟩, (⟨[5], none⟩ : Page Nat)]
    (by decide)
  exact ⟨h.1.trans (by decide), h.2.trans (by decide)⟩

/-- Claim C8 (amended): the by-path resolver strips surrounding
whitespace and slashes and inserts the remaining path into the item URL
verbatim: the inserted component is a contiguous substring of the
caller's raw path (so no percent-escaping is applied) and it never
starts with a slash. -/
theorem path_inserted_verbatim :
    ∀ (raw : String) (did : Option String),
      (read_meta_url did (normPath raw)).data =
        (GRAPH_BASE ++ "/drives/" ++ pyFStr did ++ "/root:/").data ++
          (normPath raw).data ∧
      (normPath raw).data <:+: raw.data ∧
      (∀ c : Char, (normPath raw).data.head? = some c → c ≠ '/') := by
  intro raw did
  refine ⟨rfl, ?_, ?_⟩
  · exact List.IsInfix.trans
      (stripEnds_data_contig (fun c => c = '/') (pyStrip raw))
      (stripEnds_data_contig pySpace raw)
  · intro c hc
    have h := stripEnds_head_not (fun x => x = '/') (pyStrip raw) c hc
    simpa using h

/-- Witness for the amended claim C8 at the raw path " /a b/": the
normalised path "a b" is inserted verbatim (space kept, no escaping) and
has no leading slash. -/
theorem path_inserted_verbatim_witness :
    (read_meta_url (some "d") (normPath " /a b/")).data =
      (GRAPH_BASE ++ "/drives/" ++ pyFStr (some "d") ++ "/root:/").data ++
        (normPath " /a b/").data ∧
    (normPath " /a b/").data <:+: (" /a b/" : String).data ∧
    (∀ c : Char, (normPath " /a b/").data.head? = some c → c ≠ '/') :=
  path_inserted_verbatim " /a b/" (some "d")

/-- Counterexample to claim C8 as stated: the path "Cartella Uno" is
inserted with its raw space, producing a URL that contains an unescaped
space and no percent sign: no percent-escaping happens. -/
theorem path_escaping_cex :
    read_meta_url (some "d") (normPath " /Cartella Uno/") =
      "https://graph.microsoft.com/v1.0/drives/d/root:/Cartella Uno" ∧
    ("https://graph.microsoft.com/v1.0/drives/d/root:/Cartella Uno").data.contains
      ' ' = true ∧
    ("https://graph.microsoft.com/v1.0/drives/d/root:/Cartella Uno").data.contains
      '%' = false := by
  decide
